import Mathlib

/-!
Verification of the librarian repository: per-repository MCP server
lifecycle, JSON-RPC protocol engine, configuration store and file
watcher, shallowly embedded from the repository sources
(src/.agent_library/RUST_MCP_SERVER.md, src/unnamed/part_009,
src/src/lib/stores/config.ts, src/src/lib/stores/fileWatcher.ts).
-/

/-- Model of serde_json::Value, the JSON values exchanged over JSON-RPC. -/
inductive Json where
  | null : Json
  | bool : Bool → Json
  | num : Int → Json
  | str : String → Json
  | arr : List Json → Json
  | obj : List (String × Json) → Json

/-- Looks up a field of a JSON object, as serde does when deserializing
a struct from a Value. -/
def lookupField (fields : List (String × Json)) (key : String) : Option Json :=
  match fields.find? (fun f => f.fst = key) with
  | some f => some f.snd
  | none => none

/-- A prompt of an agent library (struct Prompt of the Rust guide:
name, description, content). -/
structure Prompt where
  name : String
  description : String
  content : String
deriving DecidableEq

/-- A parsed agent library: index metadata plus the ordered prompts. -/
structure AgentLibrary where
  name : String
  description : String
  prompts : List Prompt
deriving DecidableEq

/-- ServerInfo of McpServerState in RUST_MCP_SERVER.md. -/
structure ServerInfo where
  name : String
  version : String
deriving DecidableEq

/-- McpServerState of RUST_MCP_SERVER.md: the libraries served plus the
server identity. -/
structure McpServerState where
  agent_libraries : List AgentLibrary
  server_info : ServerInfo

/-- JsonRpcError of RUST_MCP_SERVER.md: code, message, optional data. -/
structure JsonRpcError where
  code : Int
  message : String
  data : Option Json

/-- JsonRpcRequest of RUST_MCP_SERVER.md. -/
structure JsonRpcRequest where
  jsonrpc : String
  id : Option Json
  method : String
  params : Option Json

/-- JsonRpcResponse of RUST_MCP_SERVER.md: exactly one of result and
error is set by every constructor site in the source. -/
structure JsonRpcResponse where
  jsonrpc : String
  id : Option Json
  result : Option Json
  error : Option JsonRpcError

/-- The single quote character, used by the Rust not-found message. -/
def squote : String := String.singleton (Char.ofNat 39)

/-- The message of the prompts/get not-found error in handle_prompts_get:
format!("Prompt not found") naming the missing id between single quotes. -/
def promptNotFoundMessage (name : String) : String :=
  "Prompt " ++ squote ++ name ++ squote ++ " not found"

/-- All prompts of all served libraries, in iteration order of the
nested loops of the Rust handlers. -/
def promptsOf (libraries : List AgentLibrary) : List Prompt :=
  (libraries.map (fun l => l.prompts)).flatten

/-- The nested for loops of handle_prompts_get with early return: first
prompt over all libraries whose name equals the requested one. -/
def findPrompt (libraries : List AgentLibrary) (name : String) : Option Prompt :=
  (promptsOf libraries).find? (fun p => p.name = name)

/-- serde deserialization of PromptsGetParams from the params Value:
requires an object with a string field name. -/
def parsePromptsGetParams (j : Json) : Option String :=
  match j with
  | Json.obj fields =>
    match lookupField fields "name" with
    | some (Json.str s) => some s
    | _ => none
  | _ => none

/-- Serialization of PromptsGetResult for a found prompt: description
plus a single user-role text message holding the prompt content. -/
def promptsGetResult (p : Prompt) : Json :=
  Json.obj
    [("description", Json.str p.description),
     ("messages", Json.arr
       [Json.obj
         [("role", Json.str "user"),
          ("content", Json.obj
            [("type", Json.str "text"), ("text", Json.str p.content)])]])]

/-- The error produced when params are absent in handle_prompts_get. -/
def invalidParamsError : JsonRpcError :=
  { code := -32602, message := "Invalid params", data := none }

/-- The error produced when serde fails to deserialize the params value;
the guide routes serde_json errors to code -32603 (Internal error)
through McpServerError. -/
def paramsDeserializeError : JsonRpcError :=
  { code := -32603, message := "JSON serialization error", data := none }

/-- handle_prompts_get of RUST_MCP_SERVER.md: deserialize params, scan
all prompts of all libraries for the requested name, answer with the
prompt content or a -32602 error naming the missing id. -/
def handle_prompts_get (params : Option Json) (libraries : List AgentLibrary) :
    Except JsonRpcError Json :=
  match params with
  | none => Except.error invalidParamsError
  | some pj =>
    match parsePromptsGetParams pj with
    | none => Except.error paramsDeserializeError
    | some name =>
      match findPrompt libraries name with
      | some prompt => Except.ok (promptsGetResult prompt)
      | none =>
        Except.error
          { code := -32602, message := promptNotFoundMessage name, data := none }

/-- The prompts/list result of handle_prompts_list: name, description
and null arguments for every prompt of every library, in order. -/
def promptsListResult (libraries : List AgentLibrary) : Json :=
  Json.obj
    [("prompts", Json.arr ((promptsOf libraries).map (fun p =>
      Json.obj
        [("name", Json.str p.name),
         ("description", Json.str p.description),
         ("arguments", Json.null)])))]

/-- handle_prompts_list of RUST_MCP_SERVER.md: always succeeds with the
full ordered prompt list of the current snapshot. -/
def handle_prompts_list (libraries : List AgentLibrary) :
    Except JsonRpcError Json :=
  Except.ok (promptsListResult libraries)

/-- The initialize result of RUST_MCP_SERVER.md: fixed protocol version,
capabilities with no subscription or list-change push, server identity. -/
def initializeResult (info : ServerInfo) : Json :=
  Json.obj
    [("protocolVersion", Json.str "2024-11-05"),
     ("capabilities", Json.obj
       [("prompts", Json.obj [("listChanged", Json.bool false)]),
        ("resources", Json.obj
          [("subscribe", Json.bool false), ("listChanged", Json.bool false)])]),
     ("serverInfo", Json.obj
       [("name", Json.str info.name), ("version", Json.str info.version)])]

/-- handle_initialize of RUST_MCP_SERVER.md: does not depend on library
content and always succeeds. -/
def handle_initialize (state : McpServerState) : Except JsonRpcError Json :=
  Except.ok (initializeResult state.server_info)

/-- Modelled from the spec: the resources/list handler is named as a
recognized MCP method of this server but its body is not in the
repository sources; per the spec it is a read-only exposure of the
underlying files, listing one resource per prompt. -/
def handle_resources_list (libraries : List AgentLibrary) :
    Except JsonRpcError Json :=
  Except.ok (Json.obj
    [("resources", Json.arr ((promptsOf libraries).map (fun p =>
      Json.obj [("uri", Json.str p.name), ("name", Json.str p.name)])))])

/-- Modelled from the spec: the resources/read handler is named as a
recognized MCP method of this server but its body is not in the
repository sources; per the spec, reading a non-existent resource fails
with -32602. -/
def handle_resources_read (params : Option Json) (libraries : List AgentLibrary) :
    Except JsonRpcError Json :=
  match params with
  | none => Except.error invalidParamsError
  | some pj =>
    match pj with
    | Json.obj fields =>
      match lookupField fields "uri" with
      | some (Json.str uri) =>
        match findPrompt libraries uri with
        | some p => Except.ok (Json.obj
            [("contents", Json.arr
              [Json.obj [("uri", Json.str uri), ("text", Json.str p.content)]])])
        | none =>
          Except.error { code := -32602,
                         message := "Resource not found", data := none }
      | _ => Except.error invalidParamsError
    | _ => Except.error invalidParamsError

/-- The Ok and Err arms every dispatch branch of handle_jsonrpc repeats:
a 2.0 response echoing the request id with exactly one of result and
error set. -/
def wrapResult (r : Except JsonRpcError Json) (id : Option Json) : JsonRpcResponse :=
  match r with
  | Except.ok result =>
    { jsonrpc := "2.0", id := id, result := some result, error := none }
  | Except.error e =>
    { jsonrpc := "2.0", id := id, result := none, error := some e }

/-- The -32601 error of the default match arm of handle_jsonrpc. -/
def methodNotFoundError : JsonRpcError :=
  { code := -32601, message := "Method not found", data := none }

/-- handle_jsonrpc of RUST_MCP_SERVER.md: dispatch on the method name
over the five recognized MCP methods (the guide shows initialize and
prompts/list and states the others are implemented the same way), with
the default arm answering -32601 Method not found. -/
def handle_jsonrpc (state : McpServerState) (request : JsonRpcRequest) :
    JsonRpcResponse :=
  if request.method = "initialize" then
    wrapResult ( handle_initialize state) request.id
  else if request.method = "prompts/list" then
    wrapResult (handle_prompts_list state.agent_libraries) request.id
  else if request.method = "prompts/get" then
    wrapResult (handle_prompts_get request.params state.agent_libraries) request.id
  else if request.method = "resources/list" then
    wrapResult (handle_resources_list state.agent_libraries) request.id
  else if request.method = "resources/read" then
    wrapResult (handle_resources_read request.params state.agent_libraries) request.id
  else
    { jsonrpc := "2.0", id := request.id, result := none,
      error := some methodNotFoundError }

/-- find_available_port of RUST_MCP_SERVER.md: scan ports 9500 to 9599
in ascending order and return the first that binds; the free argument
models which ports the operating system lets the probe bind. -/
def find_available_port (free : Nat → Bool) : Except String Nat :=
  match (List.range' 9500 100).find? (fun port => free port) with
  | some port => Except.ok port
  | none => Except.error "No available ports in range 9500-9599"

/-- McpServerHandle of src/unnamed/part_009: bound port, spawned task
handle, repository path. The task handle itself carries no state the
claims inspect, so only its presence is modelled by the registry entry. -/
structure McpServerHandle where
  port : Nat
  repository_path : String
deriving DecidableEq

/-- The ServerManager registry of part_009, HashMap from repository id
to handle, modelled as an association list with unique keys. -/
abbrev ServerManager := List (String × McpServerHandle)

/-- HashMap::contains_key on the modelled registry. -/
def registryContains (servers : ServerManager) (repository_id : String) : Bool :=
  servers.any (fun e => e.fst = repository_id)

/-- The outcome of one start_repository_mcp_server call: the returned
Result, the registry afterwards, and the port this call itself
allocated and bound (none when the call bound nothing). -/
structure StartOutcome where
  result : Except String String
  servers : ServerManager
  boundPort : Option Nat

/-- start_repository_mcp_server of src/unnamed/part_009: under the
write lock, skip with a fixed message if the id is already registered;
otherwise find a port, parse the library, spawn the server and insert
the handle. The free argument models bindable ports and parse the
result of parse_agent_library_internal on repo_path. -/
def start_repository_mcp_server (repository_id repo_path : String)
    (free : Nat → Bool) (parse : Except String AgentLibrary)
    (servers : ServerManager) : StartOutcome :=
  if registryContains servers repository_id then
    { result := Except.ok "Server already running", servers := servers,
      boundPort := none }
  else
    match find_available_port free with
    | Except.error e =>
      { result := Except.error e, servers := servers, boundPort := none }
    | Except.ok port =>
      match parse with
      | Except.error e =>
        { result := Except.error e, servers := servers, boundPort := none }
      | Except.ok _ =>
        { result := Except.ok ("MCP server started on port " ++ toString port),
          servers := servers ++
            [(repository_id, { port := port, repository_path := repo_path })],
          boundPort := some port }

/-- stop_repository_mcp_server of src/unnamed/part_009: under the write
lock, remove the handle and abort its task when present, otherwise
answer the error Server not found. -/
def stop_repository_mcp_server (repository_id : String) (servers : ServerManager) :
    Except String String × ServerManager :=
  match servers.find? (fun e => e.fst = repository_id) with
  | some _ =>
    (Except.ok "Server stopped",
     servers.filter (fun e => ¬ e.fst = repository_id))
  | none => (Except.error "Server not found", servers)

/-- McpServerConfig of src/src/lib/stores/config.ts. -/
structure McpServerConfig where
  port : Nat
  status : String
deriving DecidableEq

/-- RepositoryConfig of src/src/lib/stores/config.ts. -/
structure RepositoryConfig where
  id : String
  name : String
  path : String
  is_active : Bool
  last_updated : String
  mcp_server : Option McpServerConfig
deriving DecidableEq

/-- AppConfig of src/src/lib/stores/config.ts. -/
structure AppConfig where
  repositories : List RepositoryConfig
  last_opened_repository : Option String
  theme : String
  auto_start_servers : Bool
deriving DecidableEq

/-- The store update of ConfigAPI.addRepository: replace the entry at
the index findIndex locates for the same id, otherwise append the
repository at the end. -/
def addRepository (config : AppConfig) (repository : RepositoryConfig) :
    AppConfig :=
  match config.repositories.findIdx? (fun r => r.id = repository.id) with
  | some i => { config with repositories := config.repositories.set i repository }
  | none => { config with repositories := config.repositories ++ [repository] }

/-- FileChangeEvent of src/src/lib/stores/fileWatcher.ts. -/
structure FileChangeEvent where
  repository_id : String
  file_path : String
  change_type : String
  timestamp : String
deriving DecidableEq

/-- WatchedRepository of src/src/lib/stores/fileWatcher.ts. -/
structure WatchedRepository where
  repository_id : String
  is_watching : Bool
  last_change : Option FileChangeEvent
deriving DecidableEq

/-- One notification.set call: type (info, success, error) and message. -/
structure Notification where
  type : String
  message : String
deriving DecidableEq

/-- Whether the pattern occurs at the head of the character list. -/
def matchesAt : List Char → List Char → Bool
  | _, [] => true
  | [], _ :: _ => false
  | c :: cs, p :: ps => c = p && matchesAt cs ps

/-- Whether the pattern occurs anywhere in the character list. -/
def occursIn (pat : List Char) : List Char → Bool
  | [] => pat.isEmpty
  | c :: cs => matchesAt (c :: cs) pat || occursIn pat cs

/-- JavaScript String.prototype.includes: substring containment. -/
def strIncludes (s pat : String) : Bool :=
  occursIn pat.toList s.toList

/-- JavaScript String.prototype.toLowerCase, at the character level (the
paths and patterns compared in fileWatcher.ts are ASCII). -/
def lowerString (s : String) : String :=
  String.mk (s.toList.map Char.toLower)

/-- The importantFiles list of FileWatcherAPI.shouldAutoReload. -/
def importantFiles : List String :=
  ["agent_index.yml", "agent_index.yaml", ".md"]

/-- FileWatcherAPI.shouldAutoReload of fileWatcher.ts: the lowercased
event path contains one of the important-file patterns. -/
def shouldAutoReload (event : FileChangeEvent) : Bool :=
  importantFiles.any (fun pattern =>
    strIncludes (lowerString event.file_path) (lowerString pattern))

/-- The state the file watcher callback touches: the two stores of
fileWatcher.ts, the backend snapshots and server registry, the
reload_agent_library invocations issued, and the notification.set log. -/
structure WatcherState where
  fileChangeEvents : List FileChangeEvent
  watchedRepositories : List WatchedRepository
  snapshots : List (String × AgentLibrary)
  servers : ServerManager
  reloadCalls : List (String × String)
  notificationsLog : List Notification
deriving DecidableEq

/-- Install a freshly parsed library as the snapshot of a repository. -/
def setSnapshot (snapshots : List (String × AgentLibrary))
    (repository_id : String) (lib : AgentLibrary) :
    List (String × AgentLibrary) :=
  if snapshots.any (fun e => e.fst = repository_id) then
    snapshots.map (fun e => if e.fst = repository_id then (e.fst, lib) else e)
  else
    snapshots ++ [(repository_id, lib)]

/-- The error notification message of the reloadAgentLibrary catch arm. -/
def reloadFailureMessage (repositoryId err : String) : String :=
  "自動更新に失敗しました (リポジトリ: " ++ repositoryId ++ "): " ++ err

/-- The success notification message of reloadAgentLibrary. -/
def reloadSuccessMessage : String :=
  "設定ファイルの変更を検知し、自動更新しました"

/-- The invoke of the Tauri command reload_agent_library and the
following notification. Modelled from the spec: the Rust body of
reload_agent_library is not in the repository sources; per the spec a
successful re-parse atomically swaps the snapshot of the repository and
a parse failure leaves the served snapshot untouched. The frontend
catch arm of fileWatcher.ts surfaces the failure as an error
notification and nothing else. -/
def reloadInvoke (parseFn : String → Except String AgentLibrary)
    (repositoryId repoPath : String) (st : WatcherState) : WatcherState :=
  let st1 := { st with reloadCalls := st.reloadCalls ++ [(repositoryId, repoPath)] }
  match parseFn repoPath with
  | Except.ok lib =>
    { st1 with snapshots := setSnapshot st1.snapshots repositoryId lib,
               notificationsLog := st1.notificationsLog ++
                 [{ type := "success", message := reloadSuccessMessage }] }
  | Except.error e =>
    { st1 with notificationsLog := st1.notificationsLog ++
        [{ type := "error", message := reloadFailureMessage repositoryId e }] }

/-- FileWatcherAPI.reloadAgentLibrary of fileWatcher.ts: resolve the
repository path (from the argument, or from the configuration when the
argument is absent; a missing repository throws into the catch arm,
whose template literal stringifies the Error object), then invoke the
backend reload. -/
def reloadAgentLibrary (parseFn : String → Except String AgentLibrary)
    (configRepos : List RepositoryConfig) (repositoryId : String)
    (repositoryPath : Option String) (st : WatcherState) : WatcherState :=
  match repositoryPath with
  | some p => reloadInvoke parseFn repositoryId p st
  | none =>
    match configRepos.find? (fun r => r.id = repositoryId) with
    | some r => reloadInvoke parseFn repositoryId r.path st
    | none =>
      { st with notificationsLog := st.notificationsLog ++
          [{ type := "error",
             message := reloadFailureMessage repositoryId
               ("Error: Repository " ++ repositoryId ++ " not found") }] }

/-- Characters before the first occurrence of the pattern, the whole
list when the pattern does not occur: JavaScript split(sep) at index 0
for a non-empty separator. -/
def takeUntilPat (pat : List Char) : List Char → List Char
  | [] => []
  | c :: cs => if matchesAt (c :: cs) pat then [] else c :: takeUntilPat pat cs

/-- The repository path the event listener derives from the event:
file_path.split of /.agent_library at index 0, everything before the
first /.agent_library segment of the path. -/
def repositoryPathOf (event : FileChangeEvent) : String :=
  String.mk (takeUntilPat "/.agent_library".toList event.file_path.toList)

/-- JavaScript split on a separator character. -/
def splitOnChar (sep : Char) : List Char → List (List Char)
  | [] => [[]]
  | c :: cs =>
    match splitOnChar sep cs with
    | [] => [[c]]
    | h :: t => if c = sep then [] :: h :: t else (c :: h) :: t

/-- The changeTypeText mapping of showChangeNotification. -/
def changeTypeText (change_type : String) : String :=
  if change_type = "Created" then "作成"
  else if change_type = "Modified" then "変更"
  else if change_type = "Deleted" then "削除"
  else "名前変更"

/-- FileWatcherAPI.showChangeNotification of fileWatcher.ts: an info
notification for important files only. -/
def showChangeNotification (event : FileChangeEvent) (st : WatcherState) :
    WatcherState :=
  if shouldAutoReload event then
    let fileName :=
      match (splitOnChar '/' event.file_path.toList).getLast? with
      | some last =>
        if last.isEmpty then event.file_path else String.mk last
      | none => event.file_path
    { st with notificationsLog := st.notificationsLog ++
        [{ type := "info",
           message := fileName ++ " が" ++ changeTypeText event.change_type
             ++ "されました" }] }
  else st

/-- The file-change callback FileWatcherAPI.initializeEventListener
registers, applied to one delivered event: prepend the event to the
store keeping the newest 100, record the last change of the watched
repository, reload the agent library when auto reload is on and the
event matches, then show the change notification. -/
def onFileChange (parseFn : String → Except String AgentLibrary)
    (configRepos : List RepositoryConfig) (autoReloadEnabled : Bool)
    (st : WatcherState) (event : FileChangeEvent) : WatcherState :=
  let st1 := { st with
    fileChangeEvents := (event :: st.fileChangeEvents).take 100,
    watchedRepositories := st.watchedRepositories.map (fun repo =>
      if repo.repository_id = event.repository_id then
        { repo with last_change := some event }
      else repo) }
  let st2 :=
    if autoReloadEnabled && shouldAutoReload event then
      reloadAgentLibrary parseFn configRepos event.repository_id
        (some (repositoryPathOf event)) st1
    else st1
  showChangeNotification event st2

/-- A burst of events delivered in order to the callback. -/
def onFileChangeEvents (parseFn : String → Except String AgentLibrary)
    (configRepos : List RepositoryConfig) (autoReloadEnabled : Bool)
    (st : WatcherState) (events : List FileChangeEvent) : WatcherState :=
  events.foldl (onFileChange parseFn configRepos autoReloadEnabled) st

/-- A demo library with the two prompts a and b of the spec scenario. -/
def demoLib : AgentLibrary :=
  { name := "Librarian Development Library",
    description := "demo",
    prompts := [{ name := "a", description := "da", content := "ca" },
                { name := "b", description := "db", content := "cb" }] }

/-- The first prompt of the demo library. -/
def promptA : Prompt := { name := "a", description := "da", content := "ca" }

/-- The watcher state before any event is delivered. -/
def initialWatcherState : WatcherState :=
  { fileChangeEvents := [], watchedRepositories := [], snapshots := [],
    servers := [], reloadCalls := [], notificationsLog := [] }

/-- A matching index-file change event. -/
def evIndex1 : FileChangeEvent :=
  { repository_id := "repo1",
    file_path := "/repo/.agent_library/agent_index.yml",
    change_type := "Modified", timestamp := "2024-01-01T00:00:00.000Z" }

/-- A second matching event for the same repository, 50 milliseconds
after the first, well inside any debounce window of a few hundred
milliseconds. -/
def evIndex2 : FileChangeEvent :=
  { repository_id := "repo1",
    file_path := "/repo/.agent_library/agent_index.yml",
    change_type := "Modified", timestamp := "2024-01-01T00:00:00.050Z" }

/-- A markdown file outside the .agent_library directory. -/
def evReadme : FileChangeEvent :=
  { repository_id := "repo1", file_path := "/repo/README.md",
    change_type := "Modified", timestamp := "2024-01-01T00:00:00.000Z" }

/-- A non-markdown, non-index file event. -/
def evRustFile : FileChangeEvent :=
  { repository_id := "repo1", file_path := "/repo/src/main.rs",
    change_type := "Modified", timestamp := "2024-01-01T00:00:00.000Z" }

theorem showChangeNotification_keeps (event : FileChangeEvent) (st : WatcherState) :
    (showChangeNotification event st).fileChangeEvents = st.fileChangeEvents ∧
    (showChangeNotification event st).reloadCalls = st.reloadCalls ∧
    (showChangeNotification event st).snapshots = st.snapshots := by
  unfold showChangeNotification
  split <;> exact ⟨rfl, rfl, rfl⟩

theorem reloadInvoke_fileChangeEvents (parseFn : String → Except String AgentLibrary)
    (repositoryId repoPath : String) (st : WatcherState) :
    (reloadInvoke parseFn repositoryId repoPath st).fileChangeEvents =
      st.fileChangeEvents := by
  unfold reloadInvoke
  split <;> rfl

theorem reloadInvoke_reloadCalls (parseFn : String → Except String AgentLibrary)
    (repositoryId repoPath : String) (st : WatcherState) :
    (reloadInvoke parseFn repositoryId repoPath st).reloadCalls =
      st.reloadCalls ++ [(repositoryId, repoPath)] := by
  unfold reloadInvoke
  split <;> rfl

theorem reloadAgentLibrary_fileChangeEvents
    (parseFn : String → Except String AgentLibrary)
    (configRepos : List RepositoryConfig) (repositoryId : String)
    (repositoryPath : Option String) (st : WatcherState) :
    (reloadAgentLibrary parseFn configRepos repositoryId repositoryPath st).fileChangeEvents
      = st.fileChangeEvents := by
  unfold reloadAgentLibrary
  split
  · exact reloadInvoke_fileChangeEvents ..
  · split
    · exact reloadInvoke_fileChangeEvents ..
    · rfl

theorem reloadAgentLibrary_some_reloadCalls
    (parseFn : String → Except String AgentLibrary)
    (configRepos : List RepositoryConfig) (repositoryId p : String)
    (st : WatcherState) :
    (reloadAgentLibrary parseFn configRepos repositoryId (some p) st).reloadCalls
      = st.reloadCalls ++ [(repositoryId, p)] := by
  unfold reloadAgentLibrary
  exact reloadInvoke_reloadCalls ..

theorem onFileChange_fileChangeEvents (parseFn : String → Except String AgentLibrary)
    (configRepos : List RepositoryConfig) (enabled : Bool)
    (st : WatcherState) (event : FileChangeEvent) :
    (onFileChange parseFn configRepos enabled st event).fileChangeEvents =
      (event :: st.fileChangeEvents).take 100 := by
  unfold onFileChange
  rw [(showChangeNotification_keeps ..).1]
  split
  · rw [reloadAgentLibrary_fileChangeEvents]
  · rfl

theorem onFileChange_reloadCalls (parseFn : String → Except String AgentLibrary)
    (configRepos : List RepositoryConfig) (enabled : Bool)
    (st : WatcherState) (event : FileChangeEvent) :
    (onFileChange parseFn configRepos enabled st event).reloadCalls =
      if enabled && shouldAutoReload event then
        st.reloadCalls ++ [(event.repository_id, repositoryPathOf event)]
      else st.reloadCalls := by
  unfold onFileChange
  rw [(showChangeNotification_keeps ..).2.1]
  split
  · rw [reloadAgentLibrary_some_reloadCalls]
  · rfl

/-- Claim C10: the fileChangeEvents store always holds at most 100
events; each incoming event is prepended (newest first) and anything
beyond the 100 most recent is dropped, on every delivery. -/
theorem fileChangeEvents_bounded_newest_first
    (parseFn : String → Except String AgentLibrary)
    (configRepos : List RepositoryConfig) (enabled : Bool)
    (st : WatcherState) (event : FileChangeEvent) :
    (onFileChange parseFn configRepos enabled st event).fileChangeEvents =
      (event :: st.fileChangeEvents).take 100 ∧
    (onFileChange parseFn configRepos enabled st event).fileChangeEvents.length
      ≤ 100 := by
  refine ⟨onFileChange_fileChangeEvents .., ?_⟩
  rw [onFileChange_fileChangeEvents]
  exact List.length_take_le ..

/-- Claim C7, counterexample: a change to a markdown file that is NOT
under the .agent_library directory (the path /repo/README.md does not
even contain /.agent_library) passes shouldAutoReload and triggers a
reparse, contradicting the claim that such events never cause one. -/
theorem markdown_outside_agent_library_reloads :
    strIncludes "/repo/README.md" "/.agent_library" = false ∧
    shouldAutoReload evReadme = true ∧
    (onFileChange (fun _ => Except.ok demoLib) [] true initialWatcherState
      evReadme).reloadCalls = [("repo1", "/repo/README.md")] :=
  ⟨by decide, by decide, by decide⟩

/-- Claim C7, amended: an event is ignored exactly when its lowercased
path contains none of the patterns agent_index.yml, agent_index.yaml,
.md; for such an event no reparse is triggered and the served snapshots
are unchanged. Containment in .agent_library is not checked, so
matching filenames anywhere trigger a reparse. -/
theorem non_matching_event_no_reload
    (parseFn : String → Except String AgentLibrary)
    (configRepos : List RepositoryConfig) (enabled : Bool)
    (st : WatcherState) (event : FileChangeEvent)
    (h : shouldAutoReload event = false) :
    (onFileChange parseFn configRepos enabled st event).reloadCalls =
      st.reloadCalls ∧
    (onFileChange parseFn configRepos enabled st event).snapshots =
      st.snapshots := by
  constructor
  · rw [onFileChange_reloadCalls, h]
    simp
  · unfold onFileChange
    rw [(showChangeNotification_keeps ..).2.2, h]
    simp

/-- Claim C7 witness: a Rust source file event matches nothing: no
reload call is recorded and the snapshots are untouched. -/
theorem non_matching_event_no_reload_witness :
    (onFileChange (fun _ => Except.ok demoLib) [] true initialWatcherState
      evRustFile).reloadCalls = [] ∧
    (onFileChange (fun _ => Except.ok demoLib) [] true initialWatcherState
      evRustFile).snapshots = [] :=
  non_matching_event_no_reload (fun _ => Except.ok demoLib) [] true
    initialWatcherState evRustFile (by decide)

/-- Claim C6, counterexample: two matching events for the same
repository 50 milliseconds apart (well within any debounce window of a
few hundred milliseconds) cause two reparse invocations, not one: the
event listener of fileWatcher.ts performs no debouncing at all. -/
theorem two_rapid_events_two_reloads :
    ((onFileChangeEvents (fun _ => Except.ok demoLib) [] true
      initialWatcherState [evIndex1, evIndex2]).reloadCalls).length = 2 ∧
    (2 : Nat) ≠ 1 :=
  ⟨by decide, by decide⟩

/-- Claim C6, amended: there is no debouncing and no coalescing; every
matching event immediately triggers its own reparse, so a burst of
matching events causes exactly one reparse per event (in particular two
rapid successive matching events cause two reparses). -/
theorem reload_count_equals_matching_events
    (parseFn : String → Except String AgentLibrary)
    (configRepos : List RepositoryConfig) (enabled : Bool)
    (st : WatcherState) (events : List FileChangeEvent) :
    ((onFileChangeEvents parseFn configRepos enabled st events).reloadCalls).length
      = st.reloadCalls.length +
        (events.filter (fun e => enabled && shouldAutoReload e)).length := by
  induction events generalizing st with
  | nil => rfl
  | cons e es ih =>
    have step : onFileChangeEvents parseFn configRepos enabled st (e :: es) =
        onFileChangeEvents parseFn configRepos enabled
          (onFileChange parseFn configRepos enabled st e) es := rfl
    rw [step, ih, onFileChange_reloadCalls, List.filter_cons]
    cases hc : enabled && shouldAutoReload e
    · simp
    · simp
      omega

/-- Claim C8: when the re-parse behind a refresh fails, the
reloadAgentLibrary path records the reload attempt and an error
notification and changes nothing else: the served snapshots and the
server registry are exactly those of the previous state, so the server
keeps serving the stale-but-valid snapshot, and the failure is
non-fatal. -/
theorem reload_parse_failure_keeps_snapshot
    (parseFn : String → Except String AgentLibrary)
    (configRepos : List RepositoryConfig) (repositoryId p err : String)
    (st : WatcherState) (h : parseFn p = Except.error err) :
    reloadAgentLibrary parseFn configRepos repositoryId (some p) st =
      { st with
        reloadCalls := st.reloadCalls ++ [(repositoryId, p)],
        notificationsLog := st.notificationsLog ++
          [{ type := "error",
             message := reloadFailureMessage repositoryId err }] } := by
  simp [reloadAgentLibrary, reloadInvoke, h]

/-- Claim C8 witness: a failing parse of /repo leaves the initial state
changed only in the reload log and the error notification. -/
theorem reload_parse_failure_keeps_snapshot_witness :
    reloadAgentLibrary (fun _ => Except.error "invalid agent_index.yml") []
        "repo1" (some "/repo") initialWatcherState =
      { initialWatcherState with
        reloadCalls := [("repo1", "/repo")],
        notificationsLog :=
          [{ type := "error",
             message := reloadFailureMessage "repo1" "invalid agent_index.yml" }] } :=
  reload_parse_failure_keeps_snapshot _ [] "repo1" "/repo"
    "invalid agent_index.yml" initialWatcherState rfl

theorem find?_range'_first (f : Nat → Bool) :
    ∀ (n s p : Nat), (List.range' s n).find? f = some p →
      ∀ q, s ≤ q → q < p → f q = false := by
  intro n
  induction n with
  | zero =>
    intro s p h
    simp at h
  | succ n ih =>
    intro s p h q hsq hqp
    rw [List.range'_succ] at h
    cases hf : f s with
    | true =>
      rw [List.find?_cons_of_pos _ hf] at h
      have : s = p := by injection h
      omega
    | false =>
      rw [List.find?_cons_of_neg _ (by simp [hf])] at h
      rcases Nat.eq_or_lt_of_le hsq with heq | hlt
      · exact heq ▸ hf
      · exact ih (s + 1) p h q hlt hqp

/-- Claim C4: find_available_port scans the candidate ports in
ascending order over the fixed range and returns the first port the
probe can bind; every returned port lies in 9500..9599 and every
smaller port of the range was not bindable; when no port of the range
is free it fails with the exhausted-range error instead of returning a
port. -/
theorem find_available_port_correct (free : Nat → Bool) (p : Nat) :
    (find_available_port free = Except.ok p →
      9500 ≤ p ∧ p ≤ 9599 ∧ free p = true ∧
        ∀ q, 9500 ≤ q → q < p → free q = false) ∧
    ((∀ q, 9500 ≤ q → q ≤ 9599 → free q = false) →
      find_available_port free =
        Except.error "No available ports in range 9500-9599") := by
  constructor
  · intro h
    unfold find_available_port at h
    cases hf : (List.range' 9500 100).find? (fun port => free port) with
    | none => rw [hf] at h; exact absurd h (by simp)
    | some a =>
      rw [hf] at h
      have hap : a = p := by injection h
      subst hap
      have hmem := List.mem_of_find?_eq_some hf
      have hbound := List.mem_range'.1 hmem
      have hfree : free a = true := List.find?_some hf
      obtain ⟨i, hi, hae⟩ := hbound
      refine ⟨by omega, by omega, hfree, ?_⟩
      exact find?_range'_first free 100 9500 a hf
  · intro hall
    unfold find_available_port
    rw [List.find?_eq_none.2 ?_]
    intro x hx
    have hbound := List.mem_range'.1 hx
    obtain ⟨i, hi, hxe⟩ := hbound
    simp only [Bool.not_eq_true]
    exact hall x (by omega) (by omega)

/-- Claim C4 witness: with only port 9502 bindable the allocator
returns 9502, which is in range and bindable; with nothing bindable it
reports the exhausted range. -/
theorem find_available_port_correct_witness :
    (9500 ≤ 9502 ∧ 9502 ≤ 9599 ∧ (fun q => decide (q = 9502)) 9502 = true) ∧
    find_available_port (fun _ => false) =
      Except.error "No available ports in range 9500-9599" :=
  ⟨(fun h => ⟨h.1, h.2.1, h.2.2.1⟩)
    ((find_available_port_correct (fun q => decide (q = 9502)) 9502).1 (by rfl)),
   (find_available_port_correct (fun _ => false) 0).2 (fun _ _ _ => rfl)⟩

/-- Claim C1, counterexample: when the repository already has a live
instance, start_repository_mcp_server returns the fixed success message
Server already running, identical whether the existing instance is
bound to 9500 or 9501, so the returned value does not carry the
existing bound port, contradicting the claim that the existing port is
returned to the caller. -/
theorem start_already_running_ignores_port :
    (start_repository_mcp_server "repo1" "/p" (fun _ => true)
      (Except.ok demoLib)
      [("repo1", { port := 9500, repository_path := "/p" })]).result =
        Except.ok "Server already running" ∧
    (start_repository_mcp_server "repo1" "/p" (fun _ => true)
      (Except.ok demoLib)
      [("repo1", { port := 9501, repository_path := "/p" })]).result =
        Except.ok "Server already running" ∧
    ("Server already running" : String) ≠
      "MCP server started on port " ++ toString 9500 :=
  ⟨rfl, rfl, by decide⟩

/-- Claim C1, amended: starting a repository that already has a live
instance is a no-op: the registry is returned unchanged (so it still
holds the one instance for that id), no port is allocated or bound, and
the call returns the fixed message Server already running, which does
not include the existing bound port. -/
theorem start_idempotent_no_second_bind (repository_id repo_path : String)
    (free : Nat → Bool) (parse : Except String AgentLibrary)
    (servers : ServerManager)
    (h : registryContains servers repository_id = true) :
    start_repository_mcp_server repository_id repo_path free parse servers =
      { result := Except.ok "Server already running", servers := servers,
        boundPort := none } := by
  simp [start_repository_mcp_server, h]

/-- Claim C1 witness: starting repo1 again while it is registered on
port 9500 changes nothing and binds nothing. -/
theorem start_idempotent_no_second_bind_witness :
    start_repository_mcp_server "repo1" "/p" (fun _ => true)
        (Except.ok demoLib)
        [("repo1", { port := 9500, repository_path := "/p" })] =
      { result := Except.ok "Server already running",
        servers := [("repo1", { port := 9500, repository_path := "/p" })],
        boundPort := none } :=
  start_idempotent_no_second_bind "repo1" "/p" (fun _ => true)
    (Except.ok demoLib) _ (by decide)

/-- Claim C5, counterexample: stopping a repository with no running
instance does not succeed as a no-op; stop_repository_mcp_server on an
empty registry answers the error Server not found. -/
theorem stop_missing_returns_error :
    stop_repository_mcp_server "repo1" [] =
      (Except.error "Server not found", ([] : ServerManager)) := rfl

/-- Claim C5, amended: stopping a repository with no running instance
returns the error Server not found and leaves the registry unchanged. -/
theorem stop_not_running_is_error (repository_id : String)
    (servers : ServerManager)
    (h : servers.find? (fun e => e.fst = repository_id) = none) :
    stop_repository_mcp_server repository_id servers =
      (Except.error "Server not found", servers) := by
  unfold stop_repository_mcp_server
  rw [h]

/-- Claim C5 witness: stopping repo1 while only other is registered
yields the error and the unchanged registry. -/
theorem stop_not_running_is_error_witness :
    stop_repository_mcp_server "repo1"
        [("other", { port := 9501, repository_path := "/q" })] =
      (Except.error "Server not found",
       [("other", { port := 9501, repository_path := "/q" })]) :=
  stop_not_running_is_error "repo1" _ (by decide)

/-- Claim C3: every JSON-RPC request whose method is none of the five
recognized methods (initialize, prompts/list, prompts/get,
resources/list, resources/read) is answered by the default dispatch arm
with error code -32601, message Method not found, echoing the request
id, with no result. -/
theorem unknown_method_method_not_found (state : McpServerState)
    (request : JsonRpcRequest)
    (h : request.method ∉ ["initialize", "prompts/list", "prompts/get",
      "resources/list", "resources/read"]) :
    handle_jsonrpc state request =
      { jsonrpc := "2.0", id := request.id, result := none,
        error := some { code := -32601, message := "Method not found",
                        data := none } } := by
  have h1 : ¬ request.method = "initialize" := by
    intro hh; exact h (by simp [hh])
  have h2 : ¬ request.method = "prompts/list" := by
    intro hh; exact h (by simp [hh])
  have h3 : ¬ request.method = "prompts/get" := by
    intro hh; exact h (by simp [hh])
  have h4 : ¬ request.method = "resources/list" := by
    intro hh; exact h (by simp [hh])
  have h5 : ¬ request.method = "resources/read" := by
    intro hh; exact h (by simp [hh])
  simp [handle_jsonrpc, methodNotFoundError, h1, h2, h3, h4, h5]

/-- Claim C3 witness: the unknown method tools/call is answered with
-32601 Method not found and the echoed id 1. -/
theorem unknown_method_method_not_found_witness :
    handle_jsonrpc
        { agent_libraries := [demoLib],
          server_info := { name := "librarian-mcp-server", version := "1.0.0" } }
        { jsonrpc := "2.0", id := some (Json.num 1), method := "tools/call",
          params := none } =
      { jsonrpc := "2.0", id := some (Json.num 1), result := none,
        error := some { code := -32601, message := "Method not found",
                        data := none } } :=
  unknown_method_method_not_found _ _ (by decide)

theorem find?_eq_some_of_name_nodup (name : String) :
    ∀ (ps : List Prompt) (p : Prompt), (ps.map Prompt.name).Nodup →
      p ∈ ps → p.name = name →
      ps.find? (fun q => q.name = name) = some p := by
  intro ps
  induction ps with
  | nil =>
    intro p _ hmem
    exact absurd hmem (List.not_mem_nil p)
  | cons a rest ih =>
    intro p hnd hmem hname
    rw [List.map_cons, List.nodup_cons] at hnd
    by_cases ha : a.name = name
    · rw [List.find?_cons_of_pos _ (by simp [ha])]
      rcases List.mem_cons.1 hmem with rfl | hrest
      · rfl
      · exfalso
        apply hnd.1
        rw [ha, ← hname]
        exact List.mem_map_of_mem Prompt.name hrest
    · rw [List.find?_cons_of_neg _ (by simp [ha])]
      rcases List.mem_cons.1 hmem with rfl | hrest
      · exact absurd hname ha
      · exact ih p hnd.2 hrest hname

/-- Claim C2: a prompts/get request whose params name an id carried by
a prompt of the current snapshot (prompt ids are unique within a
snapshot) is answered with that prompt as result: its description and
exactly one user-role text message whose text is the prompt content
verbatim; when no prompt of the snapshot has the id, the answer is the
-32602 error whose message names the missing id. -/
theorem prompts_get_contract (libraries : List AgentLibrary) (name : String)
    (p : Prompt) :
    (((promptsOf libraries).map Prompt.name).Nodup →
      p ∈ promptsOf libraries → p.name = name →
      handle_prompts_get (some (Json.obj [("name", Json.str name)])) libraries =
        Except.ok (promptsGetResult p)) ∧
    ((∀ q ∈ promptsOf libraries, q.name ≠ name) →
      handle_prompts_get (some (Json.obj [("name", Json.str name)])) libraries =
        Except.error { code := -32602, message := promptNotFoundMessage name,
                       data := none }) := by
  have hparse : parsePromptsGetParams (Json.obj [("name", Json.str name)]) =
      some name := rfl
  constructor
  · intro hnd hmem hname
    have hfind : findPrompt libraries name = some p :=
      find?_eq_some_of_name_nodup name (promptsOf libraries) p hnd hmem hname
    simp [handle_prompts_get, hparse, hfind]
  · intro hall
    have hfind : findPrompt libraries name = none := by
      unfold findPrompt
      exact List.find?_eq_none.2 (fun q hq => by simp [hall q hq])
    simp [handle_prompts_get, hparse, hfind]

/-- Claim C2 witness: on the demo snapshot with prompts a and b,
getting a returns the prompt a result and getting c returns the -32602
error naming c. -/
theorem prompts_get_contract_witness :
    handle_prompts_get (some (Json.obj [("name", Json.str "a")])) [demoLib] =
      Except.ok (promptsGetResult promptA) ∧
    handle_prompts_get (some (Json.obj [("name", Json.str "c")])) [demoLib] =
      Except.error { code := -32602, message := promptNotFoundMessage "c",
                     data := none } :=
  ⟨(prompts_get_contract [demoLib] "a" promptA).1 (by decide) (by decide) rfl,
   (prompts_get_contract [demoLib] "c" promptA).2 (by decide)⟩

theorem set_of_getElem?_eq {α : Type _} :
    ∀ (l : List α) (i : Nat) (a : α), l[i]? = some a → l.set i a = l := by
  intro l
  induction l with
  | nil =>
    intro i a h
    simp at h
  | cons x xs ih =>
    intro i a h
    cases i with
    | zero =>
      simp at h
      simp [h]
    | succ n =>
      simp only [List.getElem?_cons_succ] at h
      simp [ih n a h]

/-- Claim C9: ConfigAPI.addRepository replaces the entry at the index
findIndex locates when a repository with the same id exists, appends
the repository at the end otherwise (leaving every other entry
unchanged in both cases), and thereby preserves the invariant that no
two entries of the configuration share an id. -/
theorem addRepository_correct (config : AppConfig)
    (repository : RepositoryConfig) (i : Nat) :
    (config.repositories.findIdx? (fun r => r.id = repository.id) = some i →
      (addRepository config repository).repositories =
        config.repositories.set i repository) ∧
    (config.repositories.findIdx? (fun r => r.id = repository.id) = none →
      (addRepository config repository).repositories =
        config.repositories ++ [repository]) ∧
    ((config.repositories.map RepositoryConfig.id).Nodup →
      ((addRepository config repository).repositories.map
        RepositoryConfig.id).Nodup) := by
  refine ⟨?_, ?_, ?_⟩
  · intro h
    simp [addRepository, h]
  · intro h
    simp [addRepository, h]
  · intro hnd
    cases hidx : config.repositories.findIdx? (fun r => r.id = repository.id) with
    | none =>
      have heq : (addRepository config repository).repositories =
          config.repositories ++ [repository] := by simp [addRepository, hidx]
      rw [heq]
      have hnotin : repository.id ∉ config.repositories.map RepositoryConfig.id := by
        intro hin
        obtain ⟨r, hr, hre⟩ := List.mem_map.1 hin
        have := List.findIdx?_eq_none_iff.1 hidx r hr
        simp [hre] at this
      simp [List.nodup_append, hnd, hnotin]
    | some j =>
      have heq : (addRepository config repository).repositories =
          config.repositories.set j repository := by simp [addRepository, hidx]
      rw [heq, List.map_set]
      obtain ⟨hlt, hpj, _⟩ := List.findIdx?_eq_some_iff_getElem.1 hidx
      have hget : (config.repositories.map RepositoryConfig.id)[j]? =
          some repository.id := by
        rw [List.getElem?_map, List.getElem?_eq_getElem hlt]
        simpa using hpj
      rw [set_of_getElem?_eq _ j repository.id hget]
      exact hnd

/-- A repository entry used by the configuration witness. -/
def repoCfg (id name path : String) : RepositoryConfig :=
  { id := id, name := name, path := path, is_active := true,
    last_updated := "2024-01-01T00:00:00.000Z", mcp_server := none }

/-- A configuration holding two repositories with distinct ids. -/
def cfgTwo : AppConfig :=
  { repositories := [repoCfg "r1" "one" "/one", repoCfg "r2" "two" "/two"],
    last_opened_repository := none, theme := "light",
    auto_start_servers := true }

/-- Claim C9 witness: adding a repository whose id r1 already exists
replaces the entry at index 0 and keeps the ids unique; the other entry
is unchanged. -/
theorem addRepository_correct_witness :
    (addRepository cfgTwo (repoCfg "r1" "renamed" "/new")).repositories =
      [repoCfg "r1" "renamed" "/new", repoCfg "r2" "two" "/two"] ∧
    ((addRepository cfgTwo (repoCfg "r1" "renamed" "/new")).repositories.map
      RepositoryConfig.id).Nodup :=
  ⟨(addRepository_correct cfgTwo (repoCfg "r1" "renamed" "/new") 0).1 (by decide),
   (addRepository_correct cfgTwo (repoCfg "r1" "renamed" "/new") 0).2.2 (by decide)⟩
